import Mathlib

/-!
Verification of the Esp32FeederController firmware feeder subsystem.

The definitions below are a shallow embedding of the C++ sources:

* `Feeder.cpp` / `Feeder.hxx` (authoritative variant, the one whose members
  match `FeederManager.cpp`): feeder runtime state, movement algorithm,
  configure, status rendering, feedback handling;
* `FeederManager.cpp`: the M610..M615 command handlers, `extract_arg`;
* `PCA9685.hxx`: `set_pwm`, `off`, `set_servo_angle`;
* `GCodeServer.cpp` / `Utils.hxx`: `tokenize`, `break_string`, `string_trim`
  and the command-line splitting performed by `process_line`.

Machine-integer remarks: C++ `uint8_t`/`uint16_t` values are modelled as
`Nat` (with an explicit `% 256` where the source narrows a parsed value into
a `uint8_t` variable), and the signed sentinel parameters (`int8_t
ignore_feedback`, `int16_t movement_speed_ms`) as `Int`, because the only
operations performed on them are the `>= 0` sentinel tests.  Asynchronous
effects (servo commands over I2C, asio timer arming) are modelled as
explicit fields of the state: an `events` log of servo commands and a
`timer : Option TimerCallback` holding the pending timer continuation, since
the firmware keeps a single `timer_` per feeder that each
`expires_from_now`/`async_wait` pair rebinds.
-/

namespace Esp32Feeder

/-- `feeder_status_t` from Feeder.hxx (codes 0, 1, 2 in declaration order). -/
inductive FeederStatus where
  | disabled
  | idle
  | moving
deriving DecidableEq

/-- Numeric code of a status, as printed by `std::to_string(status_)`. -/
def FeederStatus.code : FeederStatus → Nat
  | .disabled => 0
  | .idle => 1
  | .moving => 2

/-- `feeder_position_t` from Feeder.hxx (codes 0..3 in declaration order). -/
inductive FeederPosition where
  | unknown
  | advancedFull
  | advancedHalf
  | retracted
deriving DecidableEq

/-- Numeric code of a position, as printed by `std::to_string(position_)`. -/
def FeederPosition.code : FeederPosition → Nat
  | .unknown => 0
  | .advancedFull => 1
  | .advancedHalf => 2
  | .retracted => 3

/-- `Feeder::feeder_config_t` (Feeder.hxx).  Field defaults model the
zero-initialisation performed by `memset(&config_, 0, configsize_)`. -/
structure FeederConfig where
  feed_length : Nat := 0
  settle_time_ms : Nat := 0
  servo_full_angle : Nat := 0
  servo_half_angle : Nat := 0
  servo_retract_angle : Nat := 0
  servo_min_pulse : Nat := 0
  servo_max_pulse : Nat := 0
  ignore_feedback : Nat := 0
  movement_degrees : Nat := 0
  movement_interval_ms : Nat := 0
deriving DecidableEq

/-- The two timer continuations a feeder ever arms on its single `timer_`:
`Feeder::update` and `Feeder::servo_movement_complete`. -/
inductive TimerCallback where
  | update
  | servoMovementComplete
deriving DecidableEq

/-- A servo command issued to the PCA9685 from this feeder's channel:
either `set_servo_angle(channel_, angle, ...)` or `off(channel_)`. -/
inductive ServoEvent where
  | setAngle (angle : Nat)
  | off
deriving DecidableEq

/-- Runtime state of one `Feeder` object.  Field defaults model the member
initialisers in Feeder.hxx (`status_{FEEDER_DISABLED}`,
`position_{POSITION_UNKNOWN}`, `tensioned_{true}`, `advance_{false}`,
`targetDegrees_{0}`, `currentDegrees_{0}`, `movement_{0}`).  `events` logs
the servo commands issued so far and `posTrace` logs every assignment to
`position_`, so that trace properties can be stated; neither is read by the
transition functions. -/
structure FeederState where
  status : FeederStatus := .disabled
  position : FeederPosition := .unknown
  movement : Nat := 0
  config : FeederConfig := {}
  tensioned : Bool := true
  advance : Bool := false
  targetDegrees : Nat := 0
  currentDegrees : Nat := 0
  timer : Option TimerCallback := none
  events : List ServoEvent := []
  posTrace : List FeederPosition := []
deriving DecidableEq

/-- `FEEDER_MECHANICAL_ADVANCE_LENGTH` (Feeder.hxx): 4mm per full cycle. -/
def FEEDER_MECHANICAL_ADVANCE_LENGTH : Nat := 4

/-- `Feeder::is_enabled`: `status_ != FEEDER_DISABLED`. -/
def is_enabled (s : FeederState) : Bool :=
  decide (s.status ≠ .disabled)

/-- `Feeder::is_moving`: `status_ == FEEDER_MOVING`. -/
def is_moving (s : FeederState) : Bool :=
  decide (s.status = .moving)

/-- `Feeder::is_busy` exactly as written in Feeder.cpp:
`!is_enabled() && status_ != FEEDER_IDLE`.  (Note the leading negation.) -/
def is_busy (s : FeederState) : Bool :=
  !is_enabled s && decide (s.status ≠ .idle)

/-- `Feeder::is_tensioned`: true when feedback is ignored, otherwise the last
feedback reading. -/
def is_tensioned (s : FeederState) : Bool :=
  if s.config.ignore_feedback ≠ 0 then true else s.tensioned

/-- Helper for the two `position_ = X` assignment sites (`retract_locked`,
`move_locked`): updates `position` and appends to the ghost trace. -/
def FeederState.setPosition (s : FeederState) (p : FeederPosition) : FeederState :=
  { s with position := p, posTrace := s.posTrace ++ [p] }

/-- `Feeder::set_servo_angle` (Feeder.cpp 430-491): records the target angle,
then either steps `currentDegrees_` by at most `movement_degrees` toward the
target (arming `servo_movement_complete` when short of it, `update` when at
it), or, when `movement_degrees` is 0, jumps directly and arms `update`.

The guard `(currentDegrees_ - config_.movement_degrees) > targetDegrees_` is
computed in C++ `int` arithmetic; with truncated `Nat` subtraction the guard
has the same value because a negative difference (resp. a truncated 0) is
never greater than the non-negative target. -/
def set_servo_angle (angle : Nat) (s0 : FeederState) : FeederState :=
  let s := { s0 with targetDegrees := angle }
  if s.config.movement_degrees ≠ 0 then
    let cur :=
      if angle < s.currentDegrees ∧ s.currentDegrees - s.config.movement_degrees > angle then
        s.currentDegrees - s.config.movement_degrees
      else if s.currentDegrees < angle ∧ s.currentDegrees + s.config.movement_degrees < angle then
        s.currentDegrees + s.config.movement_degrees
      else angle
    { s with currentDegrees := cur,
             events := s.events ++ [.setAngle cur],
             timer := some (if cur ≠ angle then .servoMovementComplete else .update) }
  else
    { s with currentDegrees := angle,
             events := s.events ++ [.setAngle angle],
             timer := some .update }

/-- `Feeder::retract_locked`: status Moving, position Retracted, servo to the
retract angle. -/
def retract_locked (s : FeederState) : FeederState :=
  set_servo_angle s.config.servo_retract_angle
    (({ s with status := .moving } : FeederState).setPosition .retracted)

/-- `Feeder::move_locked` (Feeder.cpp 380-428): one step of the movement
algorithm.  In the unexpected-state (`POSITION_UNKNOWN`) branch and in the
branches whose `movement_` guard fails, the source only logs, so the state is
returned unchanged. -/
def move_locked (s : FeederState) : FeederState :=
  if s.position = .retracted then
    if FEEDER_MECHANICAL_ADVANCE_LENGTH ≤ s.movement then
      set_servo_angle s.config.servo_full_angle
        (({ s with movement := s.movement - FEEDER_MECHANICAL_ADVANCE_LENGTH } :
            FeederState).setPosition .advancedFull)
    else if FEEDER_MECHANICAL_ADVANCE_LENGTH / 2 ≤ s.movement then
      set_servo_angle s.config.servo_half_angle
        (({ s with movement := s.movement - FEEDER_MECHANICAL_ADVANCE_LENGTH / 2 } :
            FeederState).setPosition .advancedHalf)
    else s
  else if s.position = .advancedHalf then
    if FEEDER_MECHANICAL_ADVANCE_LENGTH / 2 ≤ s.movement then
      set_servo_angle s.config.servo_full_angle
        (({ s with movement := s.movement - FEEDER_MECHANICAL_ADVANCE_LENGTH / 2 } :
            FeederState).setPosition .advancedFull)
    else s
  else if s.position = .advancedFull then
    retract_locked s
  else s

/-- `Feeder::move` (Feeder.cpp 30-56): reject when already moving, otherwise
set `movement_` (0 means configured feed length), set status Moving, and run
one movement step. -/
def move (distance : Nat) (s : FeederState) : Bool × FeederState :=
  if s.status = .moving then (false, s)
  else
    let m := if distance = 0 then s.config.feed_length else distance
    (true, move_locked { s with movement := m, status := .moving })

/-- `Feeder::update` (Feeder.cpp 286-313), in the no-timer-error case:
continue moving while enabled, moving and movement remains; otherwise, when
enabled, turn the servo channel off and go Idle; when disabled, do nothing. -/
def update (s : FeederState) : FeederState :=
  if is_enabled s && is_moving s && decide (0 < s.movement) then
    move_locked s
  else if is_enabled s then
    { s with events := s.events ++ [.off], status := .idle }
  else s

/-- `Feeder::servo_movement_complete` (Feeder.cpp 315-371), no-error case:
step `currentDegrees_` toward `targetDegrees_`, command the servo, rearm
itself while short of the target, else arm `update`. -/
def servo_movement_complete (s : FeederState) : FeederState :=
  let cur :=
    if s.targetDegrees < s.currentDegrees ∧
        s.currentDegrees - s.config.movement_degrees > s.targetDegrees then
      s.currentDegrees - s.config.movement_degrees
    else if s.currentDegrees < s.targetDegrees ∧
        s.currentDegrees + s.config.movement_degrees < s.targetDegrees then
      s.currentDegrees + s.config.movement_degrees
    else s.targetDegrees
  { s with currentDegrees := cur,
           events := s.events ++ [.setAngle cur],
           timer := some (if cur ≠ s.targetDegrees then .servoMovementComplete else .update) }

/-- `Feeder::post_pick`: failure when disabled; retract when not already
retracted. -/
def post_pick (s : FeederState) : Bool × FeederState :=
  if !is_enabled s then (false, s)
  else if s.position ≠ .retracted then (true, retract_locked s)
  else (true, s)

/-- `Feeder::enable`: status Idle, always accepted. -/
def enable (s : FeederState) : Bool × FeederState :=
  (true, { s with status := .idle })

/-- `Feeder::disable`: status Disabled, always accepted. -/
def disable (s : FeederState) : Bool × FeederState :=
  (true, { s with status := .disabled })

/-- `Feeder::feedback_state_changed` (Feeder.cpp 201-227): record the sensor
state; when not busy, arm the manual-advance flag on slack and trigger
`move()` on re-tension; when busy, clear the flag. -/
def feedback_state_changed (b : Bool) (s : FeederState) : FeederState :=
  let s1 := { s with tensioned := b }
  if !is_busy s1 then
    if !s1.tensioned then { s1 with advance := true }
    else if s1.advance then { (move 0 s1).2 with advance := false }
    else s1
  else { s1 with advance := false }

/-- One `if (provided) { config_.field = value; need_persist = true; }` block
of `Feeder::configure`: apply `f` to the configuration and mark the persist
flag when `cond` holds, otherwise pass the accumulator through. -/
def applyIf (cond : Prop) [Decidable cond] (f : FeederConfig → FeederConfig)
    (cp : FeederConfig × Bool) : FeederConfig × Bool :=
  if cond then (f cp.1, true) else cp

/-- `Feeder::configure` (Feeder.cpp 106-172).  Every field uses a
"not provided" sentinel: 0 for the unsigned parameters, a negative value for
`ignore_feedback` (`int8_t`) and `movement_speed_ms` (`int16_t`).  The
returned `Bool` is `need_persist`, i.e. whether the configuration blob was
written back to NVS.  The blocks run in source order (the nested
`if (feed_length) { if (feed_length % 2 == 0) { … } }` is the single
conjunctive condition of its block).  Note that the `max_pulse` parameter is
accepted but never stored by the source. -/
def configure (advance_angle half_advance_angle retract_angle feed_length : Nat)
    (settle_time_ms min_pulse max_pulse : Nat)
    (ignore_feedback movement_speed_ms : Int) (movement_degrees : Nat)
    (c : FeederConfig) : FeederConfig × Bool :=
  (c, false)
    |> applyIf (advance_angle ≠ 0)
        (fun c => { c with servo_full_angle := advance_angle })
    |> applyIf (half_advance_angle ≠ 0)
        (fun c => { c with servo_half_angle := half_advance_angle })
    |> applyIf (retract_angle ≠ 0)
        (fun c => { c with servo_retract_angle := retract_angle })
    |> applyIf (feed_length ≠ 0 ∧ feed_length % 2 = 0)
        (fun c => { c with feed_length := feed_length })
    |> applyIf (settle_time_ms ≠ 0)
        (fun c => { c with settle_time_ms := settle_time_ms })
    |> applyIf (min_pulse ≠ 0)
        (fun c => { c with servo_min_pulse := min_pulse })
    |> applyIf (0 ≤ ignore_feedback)
        (fun c => { c with ignore_feedback := ignore_feedback.toNat })
    |> applyIf (0 ≤ movement_speed_ms)
        (fun c => { c with movement_interval_ms := movement_speed_ms.toNat })
    |> applyIf (movement_degrees ≠ 0)
        (fun c => { c with movement_degrees := movement_degrees })

/-- `FeederManager::FEEDER_STATUS_CMD`. -/
def FEEDER_STATUS_CMD : String := "M612"

/-- `Feeder::status` (Feeder.cpp 72-90): the status line, built by the same
chain of appends as the source.  `id` is the feeder's `id_`. -/
def statusString (id : Nat) (s : FeederState) : String :=
  FEEDER_STATUS_CMD ++ " N" ++ toString id
    ++ " A" ++ toString s.config.servo_full_angle
    ++ " B" ++ toString s.config.servo_half_angle
    ++ " C" ++ toString s.config.servo_retract_angle
    ++ " D" ++ toString s.config.movement_degrees
    ++ " F" ++ toString s.config.feed_length
    ++ " S" ++ toString s.config.movement_interval_ms
    ++ " U" ++ toString s.config.settle_time_ms
    ++ " V" ++ toString s.config.servo_min_pulse
    ++ " W" ++ toString s.config.servo_max_pulse
    ++ " X" ++ toString s.position.code
    ++ " Y" ++ toString s.status.code
    ++ " Z" ++ toString s.config.ignore_feedback

/-- Modelled from the spec: the default configuration seeded by
`Feeder::initialize` when no blob is found.  The `DEFAULT_FEEDER_*`
constants are declared in the project's config.hxx, which is not among the
sources here; the values follow the spec (feed length 4 and the M613/M612
round-trip values 90/45/15, settle 240, pulses 150/600) and coincide with
the historical in-source defaults (`FeederManager.hxx`:
`DEFAULT_FULL_ANGLE = 90`, `DEFAULT_RETRACT_ANGLE = 15`,
`DEFAULT_SETTLE_TIME_MS = 240`, `DEFAULT_MIN_PULSE_COUNT = 150`,
`DEFAULT_MAX_PULSE_COUNT = 600`) and with `PCA9685::set_servo_angle`'s
defaults 150/600. -/
def defaultFeederConfig : FeederConfig :=
  { feed_length := FEEDER_MECHANICAL_ADVANCE_LENGTH
    settle_time_ms := 240
    servo_full_angle := 90
    servo_half_angle := 45
    servo_retract_angle := 15
    servo_min_pulse := 150
    servo_max_pulse := 600
    ignore_feedback := 0
    movement_degrees := 0
    movement_interval_ms := 0 }

/-! ## PCA9685 (`PCA9685.hxx`) -/

/-- Observable programming of one PCA9685 channel's ON/OFF register pair:
full-on bit set, full-off bit set, or a 12-bit counts pair. -/
inductive PwmSetting where
  | fullOn
  | fullOff
  | pulse (onCounts offCounts : Nat)
deriving DecidableEq

/-- `PCA9685::MAX_PWM_COUNTS`. -/
def MAX_PWM_COUNTS : Nat := 4096

/-- `PCA9685::NUM_CHANNELS`. -/
def NUM_CHANNELS : Nat := 16

/-- `PCA9685::set_pwm` (PCA9685.hxx 99-130): rejects channels ≥ 16 (`none`),
otherwise programs full-on for `count >= MAX_PWM_COUNTS`, full-off for
`count == 0`, and a staggered counts pair otherwise.  The `% 4096` on the
ON counts models the 12-bit register field. -/
def set_pwm (channel : Nat) (count : Nat) : Option PwmSetting :=
  if NUM_CHANNELS ≤ channel then none
  else if MAX_PWM_COUNTS ≤ count then some .fullOn
  else if count = 0 then some .fullOff
  else some (.pulse (channel * 256 % 4096) ((count + channel * 256) % 4096))

/-- `PCA9685::off` (PCA9685.hxx 139-142) exactly as written:
`set_pwm(channel, MAX_PWM_COUNTS)`. -/
def pca9685_off (channel : Nat) : Option PwmSetting :=
  set_pwm channel MAX_PWM_COUNTS

/-- `PCA9685::set_servo_angle` (PCA9685.hxx 158-172): clamp the angle into
`[min_servo_angle, max_servo_angle]`, map linearly into the pulse range, and
program the channel.  (The C++ defaults are 150, 600, 0, 180.) -/
def pca9685_set_servo_angle (channel angle : Nat)
    (min_pulse_count max_pulse_count : Nat)
    (min_servo_angle max_servo_angle : Nat) :
    Option PwmSetting :=
  let pulse_count_range := max_pulse_count - min_pulse_count
  let target_angle := max (min angle max_servo_angle) min_servo_angle
  let pulse_count := pulse_count_range * target_angle / max_servo_angle + min_pulse_count
  set_pwm channel pulse_count

/-! ## FeederManager command handlers (`FeederManager.cpp`) -/

/-- Digit accumulation used to model `std::stoi` for decimal input. -/
def parseDigits (l : List Char) : Nat :=
  l.foldl (fun n c => n * 10 + (c.toNat - 48)) 0

/-- Model of `std::stoi` restricted to well-formed decimal input (an
optional leading minus followed by digits), which is the only input the
claims exercise; on malformed input `std::stoi` throws, which is outside the
modelled behaviour. -/
def stoi (l : List Char) : Int :=
  match l with
  | '-' :: rest => -(parseDigits rest : Int)
  | _ => (parseDigits l : Int)

/-- `FeederManager::extract_arg`: find the first argument whose character at
position 0 matches the letter (`arg.rfind(arg_letter, 0) != npos` is a
prefix test), and parse the rest with `std::stoi` (`ent->substr(arg_letter.length())`). -/
def extract_arg (letter : String) (args : List String) : Option Int :=
  (args.find? (fun a => letter.toList.isPrefixOf a.toList)).map
    (fun a => stoi (a.toList.drop letter.length))

/-- Wire-level reply assembly done by `GCodeServer::GCodeClient::process_line`:
`ok`/`error` followed by a space and the handler's text. -/
def replyLine (r : Bool × String) : String :=
  (if r.1 then "ok" else "error") ++ " " ++ r.2

/-- The post-lookup check chain of `FeederManager::feeder_move`
(FeederManager.cpp 197-230), acting on the fetched feeder. -/
def feeder_move_checks (distance : Nat) (fd : FeederState) : Bool × String :=
  if !is_enabled fd then (false, "Feeder has not been enabled!")
  else if is_busy fd then (false, "Feeder is busy!")
  else if !is_tensioned fd then
    (false, "Tape cover does not appear to be tensioned correctly!")
  else if !(move distance fd).1 then (false, "Feeder reported an error!")
  else (true, "")

/-- `FeederManager::feeder_move`: parse the optional `D` distance and the
mandatory `N` index (a `uint8_t`, hence the `% 256`), reject when `N` is
absent or `feeder > feeders_.size()`, then act on `feeders_[feeder]`.
`none` models the out-of-bounds vector access that the source performs when
the fetched index is not inside the table. -/
def feeder_move (feeders : List FeederState) (args : List String) :
    Option (Bool × String) :=
  let distance := (((extract_arg "D" args).getD 0) % 256).toNat
  match extract_arg "N" args with
  | none => some (false, "Missing/invalid feeder ID")
  | some v =>
    let feeder := (v % 256).toNat
    if feeders.length < feeder then some (false, "Missing/invalid feeder ID")
    else match feeders.get? feeder with
      | none => none
      | some fd => some (feeder_move_checks distance fd)

/-- `FeederManager::feeder_post_pick` (FeederManager.cpp 232-257). -/
def feeder_post_pick (feeders : List FeederState) (args : List String) :
    Option (Bool × String) :=
  match extract_arg "N" args with
  | none => some (false, "Missing/invalid feeder ID")
  | some v =>
    let feeder := (v % 256).toNat
    if feeders.length < feeder then some (false, "Missing/invalid feeder ID")
    else match feeders.get? feeder with
      | none => none
      | some fd =>
        if !is_enabled fd then some (false, "Feeder has not been enabled!")
        else if is_busy fd then some (false, "Feeder is busy!")
        else if !(post_pick fd).1 then some (false, "Feeder reported an error!")
        else some (true, "")

/-- `FeederManager::feeder_status` (FeederManager.cpp 259-270). -/
def feeder_status (feeders : List FeederState) (args : List String) :
    Option (Bool × String) :=
  match extract_arg "N" args with
  | none => some (false, "Missing/invalid feeder ID")
  | some v =>
    let feeder := (v % 256).toNat
    if feeders.length < feeder then some (false, "Missing/invalid feeder ID")
    else (feeders.get? feeder).map (fun fd => (true, statusString feeder fd))

/-- `FeederManager::feeder_enable` (FeederManager.cpp 272-285). -/
def feeder_enable (feeders : List FeederState) (args : List String) :
    Option (Bool × String) :=
  match extract_arg "N" args with
  | none => some (false, "Missing/invalid feeder ID")
  | some v =>
    let feeder := (v % 256).toNat
    if feeders.length < feeder then some (false, "Missing/invalid feeder ID")
    else (feeders.get? feeder).map (fun fd =>
      if (enable fd).1 then (true, "") else (false, "Feeder reported an error"))

/-- `FeederManager::feeder_disable` (FeederManager.cpp 287-300). -/
def feeder_disable (feeders : List FeederState) (args : List String) :
    Option (Bool × String) :=
  match extract_arg "N" args with
  | none => some (false, "Missing/invalid feeder ID")
  | some v =>
    let feeder := (v % 256).toNat
    if feeders.length < feeder then some (false, "Missing/invalid feeder ID")
    else (feeders.get? feeder).map (fun fd =>
      if (disable fd).1 then (true, "") else (false, "Feeder reported an error"))

/-- `FeederManager::feeder_configure` (FeederManager.cpp 302-336): validate
the index, reject an odd `F`, extract the optional fields (sentinel defaults
0 for `A`,`B`,`C`,`D`,`U`,`V`,`W` and -1 for `S`,`Z`, as in the source's
local variable initialisers), call `Feeder::configure` and return the new
status line. -/
def feeder_configure (feeders : List FeederState) (args : List String) :
    Option (Bool × String) :=
  match extract_arg "N" args with
  | none => some (false, "Missing/invalid feeder ID")
  | some v =>
    let feeder := (v % 256).toNat
    if feeders.length < feeder then some (false, "Missing/invalid feeder ID")
    else
      let feed_length := extract_arg "F" args
      if feed_length.isSome ∧ (feed_length.getD 0) % 2 ≠ 0 then
        some (false, "Feed length must be a multiple of 2.")
      else
        let advance_angle := (extract_arg "A" args).getD 0
        let half_advance_angle := (extract_arg "B" args).getD 0
        let retract_angle := (extract_arg "C" args).getD 0
        let movement_degrees := (extract_arg "D" args).getD 0
        let movement_speed := (extract_arg "S" args).getD (-1)
        let settle_time := (extract_arg "U" args).getD 0
        let min_pulse := (extract_arg "V" args).getD 0
        let max_pulse := (extract_arg "W" args).getD 0
        let feedback_enabled := (extract_arg "Z" args).getD (-1)
        match feeders.get? feeder with
        | none => none
        | some fd =>
          let c := (configure advance_angle.toNat half_advance_angle.toNat
              retract_angle.toNat (feed_length.getD 0).toNat settle_time.toNat
              min_pulse.toNat max_pulse.toNat feedback_enabled movement_speed
              movement_degrees.toNat fd.config).1
          some (true, statusString feeder { fd with config := c })

/-! ## Line splitting (`Utils.hxx`, `GCodeServer.cpp::process_line`) -/

/-- The `std::isspace` character class used by `string_trim`. -/
def isspace_c (c : Char) : Bool :=
  c = ' ' ∨ c = '\t' ∨ c = '\n' ∨ c = '\u000B' ∨ c = '\u000C' ∨ c = '\r'

/-- `string_trim` (Utils.hxx 77-90): erase leading and trailing whitespace. -/
def string_trim (s : List Char) : List Char :=
  ((s.dropWhile isspace_c).reverse.dropWhile isspace_c).reverse

/-- `break_string` (Utils.hxx 14-28): split at the first character of
`delim`, dropping `delim.length` characters (clamped to the string's end). -/
def break_string (str : List Char) (delim : List Char) : List Char × List Char :=
  match str.findIdx? (fun ch => delim.contains ch) with
  | none => (str, [])
  | some pos =>
    let end_pos := if str.length < pos + delim.length then pos else pos + delim.length
    (str.take pos, str.drop end_pos)

/-- `tokenize` (Utils.hxx 41-72) at the instantiation used by
`process_line`: single-character delimiter `' '`, `keep_incomplete = true`,
`discard_empty = false`.  Each loop iteration takes the characters up to the
next delimiter (or the end) as a token — empty tokens included — and resumes
one past the delimiter; the loop stops once `lastPos` reaches the end, so
the empty string yields no tokens. -/
def tokenize (s : List Char) : List (List Char) :=
  if h : s.isEmpty then []
  else
    let pos := s.findIdx (· = ' ')
    s.take pos :: tokenize (s.drop (pos + 1))
termination_by s.length
decreasing_by
  simp only [List.length_drop]
  cases s with
  | nil => simp at h
  | cons c cs => simp; omega

/-- The argument-splitting prefix of
`GCodeServer::GCodeClient::process_line` (GCodeServer.cpp 189-196): strip
the comment, tokenize, and take `args[0]` as the command.  `none` models the
out-of-bounds `args[0]` access on an empty token vector. -/
def process_line_command (line : List Char) : Option (List Char) :=
  match tokenize (break_string line [';']).1 with
  | [] => none
  | cmd :: _ => some cmd

/-! ## System steps for the temporal claim -/

/-- The events that can act on one feeder while it is in service (excluding
`enable`/`disable`): the feeder's timer firing (a no-op unless a callback is
armed), an M610 move, an M611 post-pick, and a feedback edge from the
MCP23017. -/
inductive SystemEvent where
  | timerFire
  | moveCmd (d : Nat)
  | postPickCmd
  | feedback (b : Bool)

/-- Fire the pending timer continuation, if any.  The callback first
rebinds/clears the pending timer (the asio timer has fired), then runs. -/
def fireTimer (s : FeederState) : FeederState :=
  match s.timer with
  | none => s
  | some .update => update { s with timer := none }
  | some .servoMovementComplete => servo_movement_complete { s with timer := none }

/-- One system step. -/
def stepEvent (e : SystemEvent) (s : FeederState) : FeederState :=
  match e with
  | .timerFire => fireTimer s
  | .moveCmd d => (move d s).2
  | .postPickCmd => (post_pick s).2
  | .feedback b => feedback_state_changed b s

/-- Run a sequence of system steps. -/
def runEvents (evs : List SystemEvent) (s : FeederState) : FeederState :=
  evs.foldl (fun s e => stepEvent e s) s

/-- Drain the feeder's timer chain: fire pending continuations until none is
armed (with fuel, since `servo_movement_complete` chains can in principle be
long). -/
def runTimers : Nat → FeederState → FeederState
  | 0, s => s
  | fuel + 1, s => if s.timer = none then s else runTimers fuel (fireTimer s)

/-- One full-length (4mm) `move()` call, run to completion (timer chain
drained). -/
def doFullMove (s : FeederState) : FeederState :=
  runTimers 4 (move FEEDER_MECHANICAL_ADVANCE_LENGTH s).2

/-- `n` repeated full-length moves, each run to completion. -/
def iterMoves : Nat → FeederState → FeederState
  | 0, s => s
  | n + 1, s => iterMoves n (doFullMove s)

/-! ## Concrete states used by the theorems -/

/-- A freshly constructed feeder after `disable()`-equivalent boot state:
status Disabled, default configuration. -/
def disabledFeeder : FeederState :=
  { status := .disabled, position := .retracted, config := defaultFeederConfig }

/-- An enabled feeder that is currently executing a movement. -/
def movingFeeder : FeederState :=
  { status := .moving, position := .advancedFull, movement := 0,
    config := defaultFeederConfig }

/-- An enabled, idle feeder with feedback active (`ignore_feedback = 0`) whose
tension switch currently reads "not tensioned". -/
def untensionedFeeder : FeederState :=
  { status := .idle, position := .retracted, tensioned := false,
    config := defaultFeederConfig }

/-- An enabled, idle feeder at the retracted position with the default
configuration. -/
def idleFeeder : FeederState :=
  { status := .idle, position := .retracted, config := defaultFeederConfig }

/-! ## Theorems -/

/-- C3.  The claim states `is_busy()` is true iff the feeder is enabled and
its status is not Idle.  The code computes `!is_enabled() && status_ !=
FEEDER_IDLE`: an enabled feeder with status Moving is *not* busy, while a
Disabled feeder *is* busy — the exact inversion of the claim (and of the
header's own `@return true if the feeder is processing a previous action`). -/
theorem is_busy_is_inverted :
    is_busy movingFeeder = false ∧
    is_enabled movingFeeder = true ∧
    movingFeeder.status ≠ .idle ∧
    is_busy disabledFeeder = true ∧
    is_enabled disabledFeeder = false := by
  decide

/-- Context lemma: the post-lookup check chain of `feeder_move` can never
produce the busy reply, because `is_busy` returns true only for disabled
feeders and those are intercepted by the preceding `is_enabled` check. -/
theorem feeder_move_checks_busy_unreachable (d : Nat) (fd : FeederState) :
    (feeder_move_checks d fd).2 ≠ "Feeder is busy!" := by
  unfold feeder_move_checks is_busy is_enabled
  cases h : fd.status <;> simp [h] <;> (repeat' split) <;> simp_all

/-- C4.  The M610 handler checks, in order: enabled, busy, tensioned, then
calls `move()`.  A disabled feeder does get the distinct
`error Feeder has not been enabled!` reply, and the not-tensioned case is
reachable, but the `error Feeder is busy!` case is unreachable: for the
Moving feeder (busy per the spec) the inverted `is_busy` returns false, the
checks fall through to `move()`, which rejects, and the client sees
`error Feeder reported an error!` instead. -/
theorem feeder_move_busy_reply_unreachable :
    feeder_move [disabledFeeder] ["N0"] =
      some (false, "Feeder has not been enabled!") ∧
    replyLine (false, "Feeder has not been enabled!") =
      "error Feeder has not been enabled!" ∧
    feeder_move [untensionedFeeder] ["N0"] =
      some (false, "Tape cover does not appear to be tensioned correctly!") ∧
    feeder_move [movingFeeder] ["N0"] =
      some (false, "Feeder reported an error!") ∧
    is_busy movingFeeder = false := by
  decide

/-- C5.  Every handler validates the parsed index with
`feeder > feeders_.size()`, so `N == feeders_.size()` passes the guard and
`feeders_[feeder]` reads one past the end of the table (modelled as the
`none` result).  With one feeder configured, `N1` drives all six handlers
into the out-of-bounds access instead of the claimed
"missing/invalid feeder ID" reply; a missing `N` and `N2` are rejected. -/
theorem feeder_index_guard_off_by_one :
    feeder_status [idleFeeder] ["N1"] = none ∧
    feeder_move [idleFeeder] ["N1"] = none ∧
    feeder_post_pick [idleFeeder] ["N1"] = none ∧
    feeder_enable [idleFeeder] ["N1"] = none ∧
    feeder_disable [idleFeeder] ["N1"] = none ∧
    feeder_configure [idleFeeder] ["N1"] = none ∧
    feeder_status [idleFeeder] [] = some (false, "Missing/invalid feeder ID") ∧
    feeder_status [idleFeeder] ["N2"] = some (false, "Missing/invalid feeder ID") := by
  decide

/-- C8.  `set_pwm` behaves as claimed: count 0 programs full-off, count ≥
4096 programs full-on, and intermediate counts are staggered by
`channel*256 mod 4096`.  But `off` — the claimed de-energizer — is written
as `set_pwm(channel, MAX_PWM_COUNTS)`, which lands in the `count >=
MAX_PWM_COUNTS` branch and programs the channel permanently *on*,
contradicting its own doc comment ("turn off the PWM signal"). -/
theorem pca9685_off_programs_full_on :
    pca9685_off 0 = some .fullOn ∧
    pca9685_off 7 = some .fullOn ∧
    set_pwm 0 0 = some .fullOff ∧
    set_pwm 5 4096 = some .fullOn ∧
    set_pwm 1 100 = some (.pulse 256 356) ∧
    set_pwm 15 1 = some (.pulse 3840 3841) ∧
    set_pwm 16 0 = none := by
  decide

/-- C10.  The claim states that every line accepted by the server (non-empty
after trimming) tokenizes to at least one token — "including for lines that
consist only of a comment".  A comment-only line such as `;x` survives the
non-empty check in `on_read`, but `break_string` strips everything from the
first `;`, leaving the empty string, which `tokenize` turns into *zero*
tokens — so the unchecked `args[0]` in `process_line` reads past the end of
the empty vector (the `none` result of `process_line_command`). -/
theorem comment_only_line_has_no_tokens :
    string_trim ";x".toList = [';', 'x'] ∧
    ([';', 'x'] : List Char).isEmpty = false ∧
    tokenize (break_string [';', 'x'] [';']).1 = [] ∧
    process_line_command [';', 'x'] = none := by
  have h2 : break_string [';', 'x'] [';'] = ([], ['x']) := by decide
  refine ⟨by decide, by decide, ?_, ?_⟩
  · rw [h2]; simp [tokenize]
  · simp [process_line_command, h2, tokenize]

/-! ### Movement-step lemmas -/

/-- With `movement_degrees = 0`, `set_servo_angle` jumps straight to the
target angle, commands the servo once, and arms the `update` continuation. -/
theorem set_servo_angle_md0 (a : Nat) (s : FeederState)
    (h : s.config.movement_degrees = 0) :
    set_servo_angle a s =
      { s with targetDegrees := a, currentDegrees := a,
               events := s.events ++ [.setAngle a], timer := some .update } := by
  simp [set_servo_angle, h]

theorem set_servo_angle_status (a : Nat) (s : FeederState) :
    (set_servo_angle a s).status = s.status := by
  unfold set_servo_angle
  dsimp only
  split <;> rfl

theorem set_servo_angle_position (a : Nat) (s : FeederState) :
    (set_servo_angle a s).position = s.position := by
  unfold set_servo_angle
  dsimp only
  split <;> rfl

theorem set_servo_angle_movement (a : Nat) (s : FeederState) :
    (set_servo_angle a s).movement = s.movement := by
  unfold set_servo_angle
  dsimp only
  split <;> rfl

theorem set_servo_angle_target (a : Nat) (s : FeederState) :
    (set_servo_angle a s).targetDegrees = a := by
  unfold set_servo_angle
  dsimp only
  split <;> rfl

/-- `move_locked` from Retracted with at least a full 4mm step remaining. -/
theorem move_locked_retracted_full (s : FeederState)
    (hp : s.position = .retracted) (hm : 4 ≤ s.movement) :
    move_locked s =
      set_servo_angle s.config.servo_full_angle
        { s with movement := s.movement - 4, position := .advancedFull,
                 posTrace := s.posTrace ++ [.advancedFull] } := by
  simp [move_locked, hp, hm, FEEDER_MECHANICAL_ADVANCE_LENGTH, FeederState.setPosition]

/-- `move_locked` from Retracted with only a half step remaining. -/
theorem move_locked_retracted_half (s : FeederState)
    (hp : s.position = .retracted) (hm : 2 ≤ s.movement) (hm4 : s.movement < 4) :
    move_locked s =
      set_servo_angle s.config.servo_half_angle
        { s with movement := s.movement - 2, position := .advancedHalf,
                 posTrace := s.posTrace ++ [.advancedHalf] } := by
  have h4 : ¬ (4 ≤ s.movement) := by omega
  simp [move_locked, hp, h4, hm, FEEDER_MECHANICAL_ADVANCE_LENGTH, FeederState.setPosition]

/-- `move_locked` from HalfAdvanced with a half step remaining. -/
theorem move_locked_half_advanced (s : FeederState)
    (hp : s.position = .advancedHalf) (hm : 2 ≤ s.movement) :
    move_locked s =
      set_servo_angle s.config.servo_full_angle
        { s with movement := s.movement - 2, position := .advancedFull,
                 posTrace := s.posTrace ++ [.advancedFull] } := by
  simp [move_locked, hp, hm, FEEDER_MECHANICAL_ADVANCE_LENGTH, FeederState.setPosition]

/-- `move_locked` from FullyAdvanced retracts. -/
theorem move_locked_full_advanced (s : FeederState)
    (hp : s.position = .advancedFull) :
    move_locked s = retract_locked s := by
  simp [move_locked, hp]

/-- `move_locked` never changes the status of a Moving feeder. -/
theorem move_locked_status_moving (s : FeederState) (h : s.status = .moving) :
    (move_locked s).status = .moving := by
  unfold move_locked retract_locked FeederState.setPosition
  repeat' split
  all_goals try rw [set_servo_angle_status]
  all_goals first | exact h | rfl

/-- `Feeder::move` while already Moving: rejected, state untouched. -/
theorem move_moving (s : FeederState) (d : Nat) (h : s.status = .moving) :
    move d s = (false, s) := by
  simp [move, h]

/-- `Feeder::move` when not Moving: accepted; the movement amount and the
Moving status are stored and one movement step is executed. -/
theorem move_not_moving (s : FeederState) (d : Nat) (h : s.status ≠ .moving) :
    move d s =
      (true, move_locked
        { s with movement := if d = 0 then s.config.feed_length else d,
                 status := .moving }) := by
  simp [move, h]

/-- A full-length move run to completion, starting from an Idle feeder at the
Retracted position with immediate (non-incremental) servo movement. -/
theorem doFullMove_from_retracted (s : FeederState)
    (hst : s.status = .idle) (hp : s.position = .retracted)
    (hmd : s.config.movement_degrees = 0) :
    doFullMove s =
      { s with status := .idle, position := .advancedFull, movement := 0,
               targetDegrees := s.config.servo_full_angle,
               currentDegrees := s.config.servo_full_angle,
               timer := none,
               events := s.events ++ [.setAngle s.config.servo_full_angle, .off],
               posTrace := s.posTrace ++ [.advancedFull] } := by
  have hnm : s.status ≠ .moving := by rw [hst]; decide
  unfold doFullMove
  rw [move_not_moving s FEEDER_MECHANICAL_ADVANCE_LENGTH hnm]
  rw [move_locked_retracted_full _ (by simpa using hp)
        (by simp [FEEDER_MECHANICAL_ADVANCE_LENGTH])]
  rw [set_servo_angle_md0 _ _ (by simpa using hmd)]
  simp [runTimers, fireTimer, update, is_enabled, is_moving,
        FEEDER_MECHANICAL_ADVANCE_LENGTH, hst, List.append_assoc]

set_option maxHeartbeats 1000000 in
/-- A subsequent full-length move run to completion from the Idle,
FullyAdvanced state: it first retracts, then advances again. -/
theorem doFullMove_from_full (s : FeederState)
    (hst : s.status = .idle) (hp : s.position = .advancedFull)
    (hmd : s.config.movement_degrees = 0) :
    doFullMove s =
      { s with status := .idle, position := .advancedFull, movement := 0,
               targetDegrees := s.config.servo_full_angle,
               currentDegrees := s.config.servo_full_angle,
               timer := none,
               events := s.events ++ [.setAngle s.config.servo_retract_angle,
                                      .setAngle s.config.servo_full_angle, .off],
               posTrace := s.posTrace ++ [.retracted, .advancedFull] } := by
  have hnm : s.status ≠ .moving := by rw [hst]; decide
  unfold doFullMove
  rw [move_not_moving s FEEDER_MECHANICAL_ADVANCE_LENGTH hnm]
  rw [move_locked_full_advanced _ (by simpa using hp)]
  unfold retract_locked FeederState.setPosition
  rw [set_servo_angle_md0 _ _ (by simpa using hmd)]
  simp only [runTimers, fireTimer, update, is_enabled, is_moving,
             FEEDER_MECHANICAL_ADVANCE_LENGTH]
  norm_num
  rw [move_locked_retracted_full _ (by simp) (by simp)]
  rw [set_servo_angle_md0 _ _ (by simpa using hmd)]
  simp [runTimers, fireTimer, update, is_enabled, is_moving, List.append_assoc]

/-- Invariant holding after every completed full-length move: the feeder is
Idle at FullyAdvanced with no remaining movement, with direct (0-degree-step)
servo configuration. -/
def afterMoveInv (s : FeederState) : Prop :=
  s.status = .idle ∧ s.position = .advancedFull ∧ s.config.movement_degrees = 0

/-- Each further completed full-length move preserves `afterMoveInv` and
appends `Retracted, FullyAdvanced` to the position trace. -/
theorem iterMoves_trace (n : Nat) :
    ∀ s : FeederState, afterMoveInv s →
      (iterMoves n s).posTrace =
        s.posTrace ++ (List.replicate n
          ([FeederPosition.retracted, FeederPosition.advancedFull])).join ∧
      afterMoveInv (iterMoves n s) := by
  induction n with
  | zero => intro s hs; simpa [iterMoves] using hs
  | succ n ih =>
    intro s hs
    obtain ⟨h1, h2, h3⟩ := hs
    have hstep := doFullMove_from_full s h1 h2 h3
    have hrec := ih (doFullMove s)
      (by rw [hstep]; exact ⟨rfl, rfl, h3⟩)
    refine ⟨?_, ?_⟩
    · show (iterMoves n (doFullMove s)).posTrace = _
      rw [hrec.1, hstep]
      simp [List.replicate_succ, List.join]
    · show afterMoveInv (iterMoves n (doFullMove s))
      exact hrec.2

/-- C1.  The movement algorithm: from Retracted with remaining ≥ 4mm the
feeder goes to FullyAdvanced, consumes 4mm and targets the full angle; from
Retracted with 2mm ≤ remaining < 4mm it goes to HalfAdvanced, consumes 2mm
and targets the half angle; from HalfAdvanced with remaining ≥ 2mm it goes
to FullyAdvanced consuming 2mm; from FullyAdvanced it performs a retract;
and repeated full-length (4mm) moves run to completion visit positions
`Retracted, FullyAdvanced, Retracted, FullyAdvanced, …`. -/
theorem movement_algorithm_spec (s : FeederState) :
    (s.position = .retracted → 4 ≤ s.movement →
      (move_locked s).position = .advancedFull ∧
      (move_locked s).movement = s.movement - 4 ∧
      (move_locked s).targetDegrees = s.config.servo_full_angle) ∧
    (s.position = .retracted → 2 ≤ s.movement → s.movement < 4 →
      (move_locked s).position = .advancedHalf ∧
      (move_locked s).movement = s.movement - 2 ∧
      (move_locked s).targetDegrees = s.config.servo_half_angle) ∧
    (s.position = .advancedHalf → 2 ≤ s.movement →
      (move_locked s).position = .advancedFull ∧
      (move_locked s).movement = s.movement - 2 ∧
      (move_locked s).targetDegrees = s.config.servo_full_angle) ∧
    (s.position = .advancedFull → move_locked s = retract_locked s) ∧
    (s.status = .idle → s.position = .retracted →
      s.config.movement_degrees = 0 → s.posTrace = [.retracted] →
      ∀ n : Nat, (iterMoves (n + 1) s).posTrace =
        (List.replicate (n + 1)
          ([FeederPosition.retracted, FeederPosition.advancedFull])).join) := by
  refine ⟨?_, ?_, ?_, ?_, ?_⟩
  · intro hp hm
    rw [move_locked_retracted_full s hp hm]
    refine ⟨?_, ?_, ?_⟩
    · rw [set_servo_angle_position]
    · rw [set_servo_angle_movement]
    · rw [set_servo_angle_target]
  · intro hp hm hm4
    rw [move_locked_retracted_half s hp hm hm4]
    refine ⟨?_, ?_, ?_⟩
    · rw [set_servo_angle_position]
    · rw [set_servo_angle_movement]
    · rw [set_servo_angle_target]
  · intro hp hm
    rw [move_locked_half_advanced s hp hm]
    refine ⟨?_, ?_, ?_⟩
    · rw [set_servo_angle_position]
    · rw [set_servo_angle_movement]
    · rw [set_servo_angle_target]
  · intro hp
    exact move_locked_full_advanced s hp
  · intro hst hp hmd htr n
    have hfirst := doFullMove_from_retracted s hst hp hmd
    have hinv : afterMoveInv (doFullMove s) := by
      rw [hfirst]; exact ⟨rfl, rfl, hmd⟩
    have := (iterMoves_trace n (doFullMove s) hinv).1
    show (iterMoves n (doFullMove s)).posTrace = _
    rw [this, hfirst]
    simp [htr, List.replicate_succ, List.join]

/-- Concrete states exercising each branch of the movement algorithm. -/
def fullStepState : FeederState :=
  { status := .moving, position := .retracted, movement := 5,
    config := defaultFeederConfig }

def halfStepState : FeederState :=
  { status := .moving, position := .retracted, movement := 3,
    config := defaultFeederConfig }

def halfToFullState : FeederState :=
  { status := .moving, position := .advancedHalf, movement := 2,
    config := defaultFeederConfig }

def fullAdvancedState : FeederState :=
  { status := .moving, position := .advancedFull, movement := 4,
    config := defaultFeederConfig }

def cycleStartState : FeederState :=
  { status := .idle, position := .retracted, movement := 0,
    config := defaultFeederConfig, posTrace := [.retracted] }

/-- Witness for C1 at concrete inputs. -/
theorem movement_algorithm_spec_witness :
    ((move_locked fullStepState).position = .advancedFull ∧
      (move_locked fullStepState).movement = 1 ∧
      (move_locked fullStepState).targetDegrees = 90) ∧
    ((move_locked halfStepState).position = .advancedHalf ∧
      (move_locked halfStepState).movement = 1 ∧
      (move_locked halfStepState).targetDegrees = 45) ∧
    ((move_locked halfToFullState).position = .advancedFull ∧
      (move_locked halfToFullState).movement = 0) ∧
    move_locked fullAdvancedState = retract_locked fullAdvancedState ∧
    (iterMoves 2 cycleStartState).posTrace =
      [FeederPosition.retracted, .advancedFull, .retracted, .advancedFull] := by
  have h := movement_algorithm_spec fullStepState
  have h2 := movement_algorithm_spec halfStepState
  have h3 := movement_algorithm_spec halfToFullState
  have h4 := movement_algorithm_spec fullAdvancedState
  have h5 := movement_algorithm_spec cycleStartState
  refine ⟨?_, ?_, ?_, ?_, ?_⟩
  · simpa using h.1 rfl (by decide)
  · simpa using h2.2.1 rfl (by decide) (by decide)
  · have := h3.2.2.1 rfl (by decide)
    exact ⟨this.1, this.2.1⟩
  · exact h4.2.2.2.1 rfl
  · simpa using h5.2.2.2.2 rfl rfl rfl rfl 1

/-- C2 (amended).  `move()` while Moving is rejected with no state change.
When not Moving it returns true, stores the requested distance (the
configured feed length when the distance is 0) and the Moving status, and
then immediately executes one movement step on that intermediate state —
so the state it leaves behind is `move_locked` of the intermediate state,
whose status is still Moving. -/
theorem move_semantics (s : FeederState) (d : Nat) :
    (s.status = .moving → move d s = (false, s)) ∧
    (s.status ≠ .moving →
      (move d s).1 = true ∧
      (move d s).2 = move_locked
        { s with movement := if d = 0 then s.config.feed_length else d,
                 status := .moving } ∧
      (move d s).2.status = .moving) := by
  constructor
  · intro h; exact move_moving s d h
  · intro h
    rw [move_not_moving s d h]
    exact ⟨rfl, rfl, move_locked_status_moving _ rfl⟩

/-- Witness for C2 at concrete inputs: a Moving feeder rejects a move
unchanged; an Idle feeder accepts and ends up Moving. -/
theorem move_semantics_witness :
    move 0 movingFeeder = (false, movingFeeder) ∧
    (move 0 idleFeeder).1 = true ∧
    (move 0 idleFeeder).2.status = .moving := by
  refine ⟨(move_semantics movingFeeder 0).1 rfl, ?_, ?_⟩
  · exact ((move_semantics idleFeeder 0).2 (by decide)).1
  · exact ((move_semantics idleFeeder 0).2 (by decide)).2.2

/-- Counterexample to C2 as stated: the claim asserts that an accepted
`move(distance)` leaves `remaining_movement` equal to the stored distance,
but the movement step executed inside `move()` immediately consumes from it:
an Idle feeder at Retracted with feed length 4 ends `move(0)` with
`remaining_movement = 0`, not 4. -/
theorem move_semantics_counterexample :
    ¬ (∀ (s : FeederState) (d : Nat),
        (s.status = .moving → (move d s).1 = false ∧ (move d s).2 = s) ∧
        (s.status ≠ .moving →
          (move d s).1 = true ∧
          (move d s).2.movement =
            (if d = 0 then s.config.feed_length else d) ∧
          (move d s).2.status = .moving)) := by
  intro h
  have h2 := ((h idleFeeder 0).2 (by decide)).2.1
  exact absurd h2 (by decide)

/-- C9 invariant: a Moving feeder stuck at Retracted with no armed timer. -/
def wedgedInv (s : FeederState) : Prop :=
  s.status = .moving ∧ s.position = .retracted ∧ s.timer = none

/-- Every system event preserves the wedged invariant: the timer never fires
(none is armed), `move()` is rejected, `post_pick()` is a no-op at
Retracted, and feedback edges only toggle `tensioned`/`advance` because the
attempted implicit `move()` is rejected as well. -/
theorem stepEvent_preserves_wedgedInv (e : SystemEvent) (s : FeederState)
    (h : wedgedInv s) : wedgedInv (stepEvent e s) := by
  obtain ⟨h1, h2, h3⟩ := h
  cases e with
  | timerFire =>
    simp [stepEvent, fireTimer, h3, wedgedInv, h1, h2]
  | moveCmd d =>
    simp [stepEvent, move_moving s d h1, wedgedInv, h1, h2, h3]
  | postPickCmd =>
    have : post_pick s = (true, s) := by
      simp [post_pick, is_enabled, h1, h2]
    simp [stepEvent, this, wedgedInv, h1, h2, h3]
  | feedback b =>
    show wedgedInv (feedback_state_changed b s)
    have hb : is_busy { s with tensioned := b } = false := by
      simp [is_busy, is_enabled, h1]
    have hmv : move 0 { s with tensioned := b } =
        (false, { s with tensioned := b }) :=
      move_moving _ 0 (by simpa using h1)
    unfold feedback_state_changed
    dsimp only
    rw [hb]
    simp only [Bool.not_false, hmv]
    repeat' split
    all_goals first
      | exact ⟨by simpa using h1, by simpa using h2, by simpa using h3⟩
      | simp_all

/-- Any event sequence preserves the wedged invariant. -/
theorem runEvents_preserves_wedgedInv (evs : List SystemEvent) :
    ∀ s : FeederState, wedgedInv s → wedgedInv (runEvents evs s) := by
  induction evs with
  | nil => intro s h; simpa [runEvents] using h
  | cons e evs ih =>
    intro s h
    have : runEvents (e :: evs) s = runEvents evs (stepEvent e s) := by
      simp [runEvents]
    rw [this]
    exact ih _ (stepEvent_preserves_wedgedInv e s h)

/-- C9.  A `move(d)` with 0 < d < 2 on an Idle feeder at Retracted (no timer
pending) is accepted and sets status Moving, but the movement step matches
no branch guard: no servo command is issued and no timer is armed.  From
then on no system event (timer fire, move, post-pick, feedback edge) can
ever bring the feeder back to Idle, and every later `move()` is rejected —
only `enable()`/`disable()` (excluded from the event alphabet) can leave
this state. -/
theorem short_move_wedges_feeder (s : FeederState) (d : Nat)
    (hst : s.status = .idle) (hp : s.position = .retracted)
    (ht : s.timer = none) (hd0 : 0 < d) (hd2 : d < 2) :
    (move d s).1 = true ∧
    (move d s).2.status = .moving ∧
    (move d s).2.events = s.events ∧
    (move d s).2.timer = none ∧
    ∀ evs : List SystemEvent,
      (runEvents evs (move d s).2).status = .moving ∧
      ∀ d' : Nat, (move d' (runEvents evs (move d s).2)).1 = false := by
  have hd : d = 1 := by omega
  subst hd
  have hnm : s.status ≠ .moving := by rw [hst]; decide
  have hmv := move_not_moving s 1 hnm
  have hml : move_locked
      { s with movement := if 1 = 0 then s.config.feed_length else 1,
               status := .moving } =
      { s with movement := if 1 = 0 then s.config.feed_length else 1,
               status := .moving } := by
    simp [move_locked, FEEDER_MECHANICAL_ADVANCE_LENGTH, hp]
  rw [hmv, hml]
  refine ⟨rfl, rfl, rfl, ht, ?_⟩
  intro evs
  have hinv : wedgedInv
      { s with movement := if 1 = 0 then s.config.feed_length else 1,
               status := .moving } :=
    ⟨rfl, by simpa using hp, by simpa using ht⟩
  have hrun := runEvents_preserves_wedgedInv evs _ hinv
  exact ⟨hrun.1, fun d' => by rw [move_moving _ d' hrun.1]⟩

/-- Witness for C9 at a concrete input: `move(1)` on the default idle feeder
wedges it; after a timer fire, slack/tension feedback edges and a post-pick,
it is still Moving and a later full move is rejected. -/
theorem short_move_wedges_feeder_witness :
    (move 1 idleFeeder).1 = true ∧
    (runEvents [.timerFire, .feedback false, .feedback true, .postPickCmd]
      (move 1 idleFeeder).2).status = .moving ∧
    (move 4 (runEvents [.timerFire, .feedback false, .feedback true, .postPickCmd]
      (move 1 idleFeeder).2)).1 = false := by
  have h := short_move_wedges_feeder idleFeeder 1 rfl rfl rfl
    (by decide) (by decide)
  refine ⟨h.1, ?_, ?_⟩
  · exact (h.2.2.2.2 [.timerFire, .feedback false, .feedback true, .postPickCmd]).1
  · exact (h.2.2.2.2 [.timerFire, .feedback false, .feedback true, .postPickCmd]).2 4

/-! ### Configure characterization -/

theorem applyIf_fst_preserved (g : FeederConfig → Nat) (cond : Prop)
    [Decidable cond] (f : FeederConfig → FeederConfig) (cp : FeederConfig × Bool)
    (hf : ∀ x, g (f x) = g x) : g (applyIf cond f cp).1 = g cp.1 := by
  unfold applyIf
  split <;> simp [hf]

theorem applyIf_fst_set (g : FeederConfig → Nat) (cond : Prop)
    [Decidable cond] (f : FeederConfig → FeederConfig) (cp : FeederConfig × Bool)
    (v : Nat) (hf : ∀ x, g (f x) = v) :
    g (applyIf cond f cp).1 = if cond then v else g cp.1 := by
  unfold applyIf
  split <;> simp_all

theorem applyIf_snd (cond : Prop) [Decidable cond]
    (f : FeederConfig → FeederConfig) (cp : FeederConfig × Bool) :
    ((applyIf cond f cp).2 = true) ↔ (cond ∨ cp.2 = true) := by
  unfold applyIf
  split <;> simp_all

theorem configure_full_angle (a b r f st mn mx : Nat) (ig sp : Int) (md : Nat)
    (c : FeederConfig) :
    (configure a b r f st mn mx ig sp md c).1.servo_full_angle =
      if a ≠ 0 then a else c.servo_full_angle := by
  simp only [configure, applyIf]
  simp only [apply_ite (fun p : FeederConfig × Bool => p.1), apply_ite FeederConfig.servo_full_angle]
  simp [ite_self]

theorem configure_half_angle (a b r f st mn mx : Nat) (ig sp : Int) (md : Nat)
    (c : FeederConfig) :
    (configure a b r f st mn mx ig sp md c).1.servo_half_angle =
      if b ≠ 0 then b else c.servo_half_angle := by
  simp only [configure, applyIf]
  simp only [apply_ite (fun p : FeederConfig × Bool => p.1), apply_ite FeederConfig.servo_half_angle]
  simp [ite_self]

theorem configure_retract_angle (a b r f st mn mx : Nat) (ig sp : Int) (md : Nat)
    (c : FeederConfig) :
    (configure a b r f st mn mx ig sp md c).1.servo_retract_angle =
      if r ≠ 0 then r else c.servo_retract_angle := by
  simp only [configure, applyIf]
  simp only [apply_ite (fun p : FeederConfig × Bool => p.1), apply_ite FeederConfig.servo_retract_angle]
  simp [ite_self]

theorem configure_feed_length (a b r f st mn mx : Nat) (ig sp : Int) (md : Nat)
    (c : FeederConfig) :
    (configure a b r f st mn mx ig sp md c).1.feed_length =
      if f ≠ 0 ∧ f % 2 = 0 then f else c.feed_length := by
  simp only [configure, applyIf]
  simp only [apply_ite (fun p : FeederConfig × Bool => p.1), apply_ite FeederConfig.feed_length]
  simp [ite_self]

theorem configure_settle_time (a b r f st mn mx : Nat) (ig sp : Int) (md : Nat)
    (c : FeederConfig) :
    (configure a b r f st mn mx ig sp md c).1.settle_time_ms =
      if st ≠ 0 then st else c.settle_time_ms := by
  simp only [configure, applyIf]
  simp only [apply_ite (fun p : FeederConfig × Bool => p.1), apply_ite FeederConfig.settle_time_ms]
  simp [ite_self]

theorem configure_min_pulse (a b r f st mn mx : Nat) (ig sp : Int) (md : Nat)
    (c : FeederConfig) :
    (configure a b r f st mn mx ig sp md c).1.servo_min_pulse =
      if mn ≠ 0 then mn else c.servo_min_pulse := by
  simp only [configure, applyIf]
  simp only [apply_ite (fun p : FeederConfig × Bool => p.1), apply_ite FeederConfig.servo_min_pulse]
  simp [ite_self]

/-- The `max_pulse` argument of `Feeder::configure` is accepted but never
stored: the stored maximum pulse count is unconditionally unchanged. -/
theorem configure_max_pulse (a b r f st mn mx : Nat) (ig sp : Int) (md : Nat)
    (c : FeederConfig) :
    (configure a b r f st mn mx ig sp md c).1.servo_max_pulse =
      c.servo_max_pulse := by
  simp only [configure, applyIf]
  simp only [apply_ite (fun p : FeederConfig × Bool => p.1), apply_ite FeederConfig.servo_max_pulse]
  simp [ite_self]

theorem configure_ignore_feedback (a b r f st mn mx : Nat) (ig sp : Int) (md : Nat)
    (c : FeederConfig) :
    (configure a b r f st mn mx ig sp md c).1.ignore_feedback =
      if 0 ≤ ig then ig.toNat else c.ignore_feedback := by
  simp only [configure, applyIf]
  simp only [apply_ite (fun p : FeederConfig × Bool => p.1), apply_ite FeederConfig.ignore_feedback]
  simp [ite_self]

theorem configure_interval (a b r f st mn mx : Nat) (ig sp : Int) (md : Nat)
    (c : FeederConfig) :
    (configure a b r f st mn mx ig sp md c).1.movement_interval_ms =
      if 0 ≤ sp then sp.toNat else c.movement_interval_ms := by
  simp only [configure, applyIf]
  simp only [apply_ite (fun p : FeederConfig × Bool => p.1), apply_ite FeederConfig.movement_interval_ms]
  simp [ite_self]

theorem configure_degrees (a b r f st mn mx : Nat) (ig sp : Int) (md : Nat)
    (c : FeederConfig) :
    (configure a b r f st mn mx ig sp md c).1.movement_degrees =
      if md ≠ 0 then md else c.movement_degrees := by
  simp only [configure, applyIf]
  simp only [apply_ite (fun p : FeederConfig × Bool => p.1), apply_ite FeederConfig.movement_degrees]
  simp [ite_self]

/-- `configure` persists the blob exactly when at least one field change was
accepted (an odd feed length in particular does not count). -/
theorem configure_persist_iff (a b r f st mn mx : Nat) (ig sp : Int) (md : Nat)
    (c : FeederConfig) :
    (configure a b r f st mn mx ig sp md c).2 = true ↔
      (a ≠ 0 ∨ b ≠ 0 ∨ r ≠ 0 ∨ (f ≠ 0 ∧ f % 2 = 0) ∨ st ≠ 0 ∨ mn ≠ 0 ∨
        0 ≤ ig ∨ 0 ≤ sp ∨ md ≠ 0) := by
  unfold configure
  simp only [Function.comp, applyIf_snd]
  simp only [show ((c, false).2 = true) ↔ False by simp]
  tauto

/-- C7 (amended).  A call to `configure` with an odd `feed_length` leaves the
stored feed length unchanged while every other provided valid field — except
`max_pulse`, which the source accepts but never stores — is still applied,
and the configuration blob is persisted iff at least one field change was
accepted. -/
theorem configure_odd_feed_frame (c : FeederConfig) (a b r f st mn mx : Nat)
    (ig sp : Int) (md : Nat) (hodd : f % 2 = 1) :
    (configure a b r f st mn mx ig sp md c).1.feed_length = c.feed_length ∧
    (a ≠ 0 → (configure a b r f st mn mx ig sp md c).1.servo_full_angle = a) ∧
    (b ≠ 0 → (configure a b r f st mn mx ig sp md c).1.servo_half_angle = b) ∧
    (r ≠ 0 → (configure a b r f st mn mx ig sp md c).1.servo_retract_angle = r) ∧
    (st ≠ 0 → (configure a b r f st mn mx ig sp md c).1.settle_time_ms = st) ∧
    (mn ≠ 0 → (configure a b r f st mn mx ig sp md c).1.servo_min_pulse = mn) ∧
    (configure a b r f st mn mx ig sp md c).1.servo_max_pulse = c.servo_max_pulse ∧
    (0 ≤ ig → (configure a b r f st mn mx ig sp md c).1.ignore_feedback = ig.toNat) ∧
    (0 ≤ sp → (configure a b r f st mn mx ig sp md c).1.movement_interval_ms = sp.toNat) ∧
    (md ≠ 0 → (configure a b r f st mn mx ig sp md c).1.movement_degrees = md) ∧
    ((configure a b r f st mn mx ig sp md c).2 = true ↔
      (a ≠ 0 ∨ b ≠ 0 ∨ r ≠ 0 ∨ st ≠ 0 ∨ mn ≠ 0 ∨ 0 ≤ ig ∨ 0 ≤ sp ∨ md ≠ 0)) := by
  have hfe : ¬ (f ≠ 0 ∧ f % 2 = 0) := by omega
  refine ⟨?_, ?_, ?_, ?_, ?_, ?_, ?_, ?_, ?_, ?_, ?_⟩
  · rw [configure_feed_length]; simp [hfe]
  · intro h; rw [configure_full_angle]; simp [h]
  · intro h; rw [configure_half_angle]; simp [h]
  · intro h; rw [configure_retract_angle]; simp [h]
  · intro h; rw [configure_settle_time]; simp [h]
  · intro h; rw [configure_min_pulse]; simp [h]
  · rw [configure_max_pulse]
  · intro h; rw [configure_ignore_feedback]; simp [h]
  · intro h; rw [configure_interval]; simp [h]
  · intro h; rw [configure_degrees]; simp [h]
  · rw [configure_persist_iff]; tauto

/-- Witness for C7 at a concrete input: an odd feed length (3) with a full
angle (80) and a max pulse (700) provided, on the default configuration. -/
theorem configure_odd_feed_frame_witness :
    (configure 80 0 0 3 0 0 700 (-1) (-1) 0 defaultFeederConfig).1.feed_length = 4 ∧
    (configure 80 0 0 3 0 0 700 (-1) (-1) 0 defaultFeederConfig).1.servo_full_angle = 80 ∧
    (configure 80 0 0 3 0 0 700 (-1) (-1) 0 defaultFeederConfig).1.servo_max_pulse = 600 ∧
    (configure 80 0 0 3 0 0 700 (-1) (-1) 0 defaultFeederConfig).2 = true := by
  have h := configure_odd_feed_frame defaultFeederConfig 80 0 0 3 0 0 700
    (-1) (-1) 0 (by decide)
  refine ⟨?_, h.2.1 (by decide), ?_, ?_⟩
  · rw [h.1]; rfl
  · rw [h.2.2.2.2.2.2.1]; rfl
  · exact h.2.2.2.2.2.2.2.2.2.2.mpr (Or.inl (by decide))

/-- Counterexample to C7 as stated: the claim promises that *every* other
provided valid field is applied when `feed_length` is odd, but the provided
`max_pulse` (700) is silently dropped — the stored maximum pulse count
remains the default 600. -/
theorem configure_odd_feed_counterexample :
    ¬ (∀ (c : FeederConfig) (a b r f st mn mx : Nat) (ig sp : Int) (md : Nat),
        f % 2 = 1 →
        ((configure a b r f st mn mx ig sp md c).1.feed_length = c.feed_length ∧
         (a ≠ 0 → (configure a b r f st mn mx ig sp md c).1.servo_full_angle = a) ∧
         (b ≠ 0 → (configure a b r f st mn mx ig sp md c).1.servo_half_angle = b) ∧
         (r ≠ 0 → (configure a b r f st mn mx ig sp md c).1.servo_retract_angle = r) ∧
         (st ≠ 0 → (configure a b r f st mn mx ig sp md c).1.settle_time_ms = st) ∧
         (mn ≠ 0 → (configure a b r f st mn mx ig sp md c).1.servo_min_pulse = mn) ∧
         (mx ≠ 0 → (configure a b r f st mn mx ig sp md c).1.servo_max_pulse = mx) ∧
         (0 ≤ ig → (configure a b r f st mn mx ig sp md c).1.ignore_feedback = ig.toNat) ∧
         (0 ≤ sp → (configure a b r f st mn mx ig sp md c).1.movement_interval_ms = sp.toNat) ∧
         (md ≠ 0 → (configure a b r f st mn mx ig sp md c).1.movement_degrees = md) ∧
         ((a ≠ 0 ∨ b ≠ 0 ∨ r ≠ 0 ∨ st ≠ 0 ∨ mn ≠ 0 ∨ mx ≠ 0 ∨ 0 ≤ ig ∨
            0 ≤ sp ∨ md ≠ 0) →
           (configure a b r f st mn mx ig sp md c).2 = true))) := by
  intro h
  have h2 := (h defaultFeederConfig 0 0 0 3 0 0 700 (-1) (-1) 0
    (by decide)).2.2.2.2.2.2.1 (by decide)
  exact absurd h2 (by decide)

/-- C6.  The M613 fields `A90 B45 C15 F4 U240 V150 W600 Z1` applied through
`configure`, then rendered by `status` (M612), echo exactly on every one of
the A/B/C/F/U/V/W/Z fields — for W because the stored maximum pulse count
already equals 600 (its default, and `configure` never modifies it), which
is the hypothesis under which this end-to-end scenario runs from boot.
The manager passes `S = -1` and `D = 0` sentinels for the unprovided
fields, so D and S render the prior values. -/
theorem m613_roundtrip_echoes (s : FeederState)
    (hmax : s.config.servo_max_pulse = 600) :
    (configure 90 45 15 4 240 150 600 1 (-1) 0 s.config).1.servo_full_angle = 90 ∧
    (configure 90 45 15 4 240 150 600 1 (-1) 0 s.config).1.servo_half_angle = 45 ∧
    (configure 90 45 15 4 240 150 600 1 (-1) 0 s.config).1.servo_retract_angle = 15 ∧
    (configure 90 45 15 4 240 150 600 1 (-1) 0 s.config).1.feed_length = 4 ∧
    (configure 90 45 15 4 240 150 600 1 (-1) 0 s.config).1.settle_time_ms = 240 ∧
    (configure 90 45 15 4 240 150 600 1 (-1) 0 s.config).1.servo_min_pulse = 150 ∧
    (configure 90 45 15 4 240 150 600 1 (-1) 0 s.config).1.servo_max_pulse = 600 ∧
    (configure 90 45 15 4 240 150 600 1 (-1) 0 s.config).1.ignore_feedback = 1 ∧
    statusString 0
        { s with config := (configure 90 45 15 4 240 150 600 1 (-1) 0 s.config).1 } =
      FEEDER_STATUS_CMD ++ " N" ++ toString 0
        ++ " A" ++ toString 90 ++ " B" ++ toString 45 ++ " C" ++ toString 15
        ++ " D" ++ toString s.config.movement_degrees
        ++ " F" ++ toString 4 ++ " S" ++ toString s.config.movement_interval_ms
        ++ " U" ++ toString 240 ++ " V" ++ toString 150 ++ " W" ++ toString 600
        ++ " X" ++ toString s.position.code ++ " Y" ++ toString s.status.code
        ++ " Z" ++ toString 1 := by
  have h1 : (configure 90 45 15 4 240 150 600 1 (-1) 0 s.config).1.servo_full_angle = 90 := by
    rw [configure_full_angle]; norm_num
  have h2 : (configure 90 45 15 4 240 150 600 1 (-1) 0 s.config).1.servo_half_angle = 45 := by
    rw [configure_half_angle]; norm_num
  have h3 : (configure 90 45 15 4 240 150 600 1 (-1) 0 s.config).1.servo_retract_angle = 15 := by
    rw [configure_retract_angle]; norm_num
  have h4 : (configure 90 45 15 4 240 150 600 1 (-1) 0 s.config).1.feed_length = 4 := by
    rw [configure_feed_length]; norm_num
  have h5 : (configure 90 45 15 4 240 150 600 1 (-1) 0 s.config).1.settle_time_ms = 240 := by
    rw [configure_settle_time]; norm_num
  have h6 : (configure 90 45 15 4 240 150 600 1 (-1) 0 s.config).1.servo_min_pulse = 150 := by
    rw [configure_min_pulse]; norm_num
  have h7 : (configure 90 45 15 4 240 150 600 1 (-1) 0 s.config).1.servo_max_pulse = 600 := by
    rw [configure_max_pulse]; exact hmax
  have h8 : (configure 90 45 15 4 240 150 600 1 (-1) 0 s.config).1.ignore_feedback = 1 := by
    rw [configure_ignore_feedback]; norm_num
  have hD : (configure 90 45 15 4 240 150 600 1 (-1) 0 s.config).1.movement_degrees =
      s.config.movement_degrees := by
    rw [configure_degrees]; norm_num
  have hS : (configure 90 45 15 4 240 150 600 1 (-1) 0 s.config).1.movement_interval_ms =
      s.config.movement_interval_ms := by
    rw [configure_interval]; norm_num
  refine ⟨h1, h2, h3, h4, h5, h6, h7, h8, ?_⟩
  unfold statusString
  dsimp only
  rw [h1, h2, h3, h4, h5, h6, h7, h8, hD, hS]

/-- Witness for C6 at the boot-default configuration: the rendered status
line is exactly the expected wire reply. -/
theorem m613_roundtrip_echoes_witness :
    statusString 0
        { ({ config := defaultFeederConfig } : FeederState) with
            config := (configure 90 45 15 4 240 150 600 1 (-1) 0
              defaultFeederConfig).1 } =
      "M612 N0 A90 B45 C15 D0 F4 S0 U240 V150 W600 X0 Y0 Z1" := by
  have h := m613_roundtrip_echoes ({ config := defaultFeederConfig } : FeederState) rfl
  rw [h.2.2.2.2.2.2.2.2]
  rfl

end Esp32Feeder

